import Mathlib

/-!
Verification of the `cm` tablet-server core against its specification.

The development shallowly embeds the two covered source files:
* `src/proxy/conn_resultset.go` — result-set protocol encoder
  (`formatField`, `Conn.buildResultset`, `Conn.writeResultset`);
* `src/vt/tabletserver/schema_info.go` — schema & plan cache manager
  (`SchemaInfo.override`, `SchemaInfo.CreateOrUpdateTable`,
  `SchemaInfo.SetQueryCacheSize`, `ExecPlan.AddStats` / `Stats`).

Collaborator code that is not part of the provided sources (the `mysql`
wire helpers, the `schema` package constants, `TableInfo`, the external
LRU cache) is modelled from the specification; each such definition says
so in its doc comment.
-/

set_option autoImplicit false

namespace CM

/-! ### MySQL wire constants

Modelled from the spec (§4.4, §6): numeric constants of the MySQL
client/server protocol used by the repository's `mysql` package, which is
not among the provided sources.  The charsets 63 (binary) and 33 (utf8)
are stated explicitly in the spec; the type/flag values are the standard
MySQL protocol values. -/

/-- Modelled from the spec: MySQL `NOT_NULL_FLAG` ("not-null flag"). -/
def NOT_NULL_FLAG : Nat := 1

/-- Modelled from the spec: MySQL `UNSIGNED_FLAG` ("unsigned flag"). -/
def UNSIGNED_FLAG : Nat := 32

/-- Modelled from the spec: MySQL `BINARY_FLAG` ("binary flag"). -/
def BINARY_FLAG : Nat := 128

/-- Modelled from the spec: MySQL `MYSQL_TYPE_LONGLONG` ("long-long type"). -/
def MYSQL_TYPE_LONGLONG : Nat := 8

/-- Modelled from the spec: MySQL `MYSQL_TYPE_VARCHAR`
("variable-length-string type"). -/
def MYSQL_TYPE_VARCHAR : Nat := 15

/-- Modelled from the spec: MySQL `MYSQL_TYPE_DOUBLE`, used as an example
schema-supplied column type. -/
def MYSQL_TYPE_DOUBLE : Nat := 5

/-! ### Go runtime values

`formatField` and `buildResultset` switch on the dynamic type of an
`interface{}` value.  `GoValue` enumerates exactly the categories the
source distinguishes; `other` carries the name printed by Go's `%T` verb
for every remaining type. -/

/-- A dynamically typed Go value, as inspected by the type switches in
`src/proxy/conn_resultset.go`. -/
inductive GoValue where
  | vi8 (v : Int)
  | vi16 (v : Int)
  | vi32 (v : Int)
  | vi64 (v : Int)
  | vint (v : Int)
  | vu8 (v : Nat)
  | vu16 (v : Nat)
  | vu32 (v : Nat)
  | vu64 (v : Nat)
  | vuint (v : Nat)
  | vf32 (render : String)
  | vf64 (render : String)
  | vstr (s : String)
  | vbytes (b : List Nat)
  | vnil
  | other (typeName : String)
  deriving DecidableEq

/-- The test `value == nil` in the source. -/
def isNil : GoValue → Bool
  | .vnil => true
  | _ => false

/-- The signed-integer categories of the first case of `formatField`. -/
def isSignedInt : GoValue → Bool
  | .vi8 _ | .vi16 _ | .vi32 _ | .vi64 _ | .vint _ => true
  | _ => false

/-- The unsigned-integer categories of the second case of `formatField`. -/
def isUnsignedInt : GoValue → Bool
  | .vu8 _ | .vu16 _ | .vu32 _ | .vu64 _ | .vuint _ => true
  | _ => false

/-- The floating-point categories of the third case of `formatField`. -/
def isFloat : GoValue → Bool
  | .vf32 _ | .vf64 _ => true
  | _ => false

/-- The textual/byte categories of the fourth case of `formatField`. -/
def isStrOrBytes : GoValue → Bool
  | .vstr _ | .vbytes _ => true
  | _ => false

/-- The default case of `formatField`'s type switch. -/
def isOther : GoValue → Bool
  | .other _ => true
  | _ => false

/-- The struct `mysql.Field` (declared in the repository's `mysql` package, used by
the covered sources).  `Typ` is the source's `Type` field, renamed because
`Type` is reserved in Lean.  The Go zero value of the struct is the
default value here. -/
structure Field where
  Name : List Nat := []
  Charset : Nat := 0
  Typ : Nat := 0
  Flag : Nat := 0
  IsUnsigned : Bool := false
  deriving DecidableEq

/-- Embeds `formatField` from `src/proxy/conn_resultset.go` (lines 10–31): derive
wire type/charset/flags from a representative value's category. -/
def formatField (field : Field) (value : GoValue) : Except String Field :=
  match value with
  | .vi8 _ | .vi16 _ | .vi32 _ | .vi64 _ | .vint _ =>
      .ok { field with Charset := 63, Typ := MYSQL_TYPE_LONGLONG,
                       Flag := BINARY_FLAG ||| NOT_NULL_FLAG }
  | .vu8 _ | .vu16 _ | .vu32 _ | .vu64 _ | .vuint _ =>
      .ok { field with Charset := 63, Typ := MYSQL_TYPE_LONGLONG,
                       Flag := BINARY_FLAG ||| NOT_NULL_FLAG ||| UNSIGNED_FLAG }
  | .vf32 _ | .vf64 _ =>
      .ok { field with Charset := 63 }
  | .vstr _ | .vbytes _ =>
      .ok { field with Charset := 33, Typ := MYSQL_TYPE_VARCHAR }
  | .vnil => .ok field
  | .other t => .error ("unsupport type " ++ t ++ " for resultset")

/-! ### Wire encoding helpers

These live in the repository's `mysql` package (not among the provided
sources) and are modelled from the spec. -/

/-- Modelled from the spec: `hack.Slice`, the string-to-bytes view used
for field names and string payloads.  Modelled as the codepoint sequence,
which coincides with the UTF-8 bytes for the ASCII inputs used here. -/
def strBytes (s : String) : List Nat :=
  s.data.map Char.toNat

/-- Modelled from the spec (§6): `mysql.PutLengthEncodedInt`, the MySQL
length-encoded integer. -/
def PutLengthEncodedInt (n : Nat) : List Nat :=
  if n ≤ 250 then [n]
  else if n ≤ 0xffff then [0xfc, n % 256, n / 256 % 256]
  else if n ≤ 0xffffff then [0xfd, n % 256, n / 256 % 256, n / 65536 % 256]
  else [0xfe, n % 256, n / 256 % 256, n / 65536 % 256, n / 16777216 % 256,
        n / 4294967296 % 256, n / 1099511627776 % 256,
        n / 281474976710656 % 256, n / 72057594037927936 % 256]

/-- Modelled from the spec (§6): `mysql.PutLengthEncodedString`, a
length-prefixed byte string. -/
def PutLengthEncodedString (b : List Nat) : List Nat :=
  PutLengthEncodedInt b.length ++ b

/-- Modelled from the spec (§4.4): `mysql.Raw`, the textual rendering of a
value appropriate to the resolved wire type, unsigned-aware for integers.
The `typ` argument is the resolved wire type; the textual protocol renders
every value as a byte string, so only the value category matters here. -/
def Raw (typ : Nat) (value : GoValue) (isUnsigned : Bool) : List Nat :=
  match value with
  | .vi8 v | .vi16 v | .vi32 v | .vi64 v | .vint v =>
      if isUnsigned then strBytes (toString (v % 18446744073709551616))
      else strBytes (toString v)
  | .vu8 v | .vu16 v | .vu32 v | .vu64 v | .vuint v => strBytes (toString v)
  | .vf32 r | .vf64 r => strBytes r
  | .vstr s => strBytes s
  | .vbytes b => b
  | .vnil => []
  | .other _ => let _ := typ; []

/-- Modelled from the spec: `mysql.CollationNames`, mapping a collation
name to its numeric charset id; a Go map read of a missing key yields the
zero value. -/
def CollationNames (name : String) : Nat :=
  if name = "binary" then 63
  else if name = "utf8_general_ci" then 33
  else 0

/-- Modelled from the spec (§4.4): `schema.TableColumn`, the authoritative
per-column metadata (name, schema type, collation, signedness). -/
structure TableColumn where
  Name : String
  SqlType : Nat
  Collation : String
  IsUnsigned : Bool
  deriving DecidableEq

/-- The struct `mysql.Resultset` as used by the covered sources: one (possibly nil)
field descriptor slot per column, and one pre-encoded byte buffer per
row. -/
structure Resultset where
  Fields : List (Option Field)
  RowDatas : List (List Nat)
  deriving DecidableEq

/-- The error text of the row/column count mismatch in
`Conn.buildResultset` (line 41): `"row %d has %d column not equal %d"`. -/
def rowMismatchMsg (i n m : Nat) : String :=
  "row " ++ toString i ++ " has " ++ toString n ++ " column not equal " ++
    toString m

/-- One cell of an encoded row (`Conn.buildResultset`, lines 59–64): a nil
value contributes the single NULL sentinel byte `0xfb`, any other value a
length-prefixed rendering driven by the given field's type/signedness. -/
def encodeCell (field : Field) (value : GoValue) : List Nat :=
  if isNil value then [0xfb]
  else PutLengthEncodedString (Raw field.Typ value field.IsUnsigned)

/-- The `i == 0` iteration of `Conn.buildResultset`'s row loop: builds the
field descriptor of every column — `formatField` on the first row's value,
then overridden by the schema's type, collation id and signedness — and
encodes the first row's cells against those descriptors. -/
def buildFirstRow :
    List TableColumn → List GoValue → Except String (List Field × List Nat)
  | _, [] => .ok ([], [])
  | [], _ :: _ => .ok ([], [])
  | nt :: nts, value :: rest =>
    match formatField { Name := strBytes nt.Name } value with
    | .error e => .error e
    | .ok field1 =>
      let field : Field :=
        { field1 with Typ := nt.SqlType,
                      Charset := CollationNames nt.Collation,
                      IsUnsigned := nt.IsUnsigned }
      match buildFirstRow nts rest with
      | .error e => .error e
      | .ok (fs, row) => .ok (field :: fs, encodeCell field value ++ row)

/-- An `i > 0` iteration of `Conn.buildResultset`'s row loop: the source
allocates a fresh zero-valued `mysql.Field` per cell and never repopulates
it after the first row, so later rows are encoded against the zero
field. -/
def buildLaterRow (vs : List GoValue) : List Nat :=
  vs.foldl (fun row value => row ++ encodeCell {} value) []

/-- The row loop of `Conn.buildResultset` (lines 39–68): each row's column
count is checked against the field-slot count, the first row populates the
descriptors, and every row contributes one encoded buffer. -/
def buildRows (nameTypes : List TableColumn) (fields : List (Option Field))
    (i : Nat) :
    List (List GoValue) → Except String (List (Option Field) × List (List Nat))
  | [] => .ok (fields, [])
  | vs :: rest =>
    if vs.length ≠ nameTypes.length then
      .error (rowMismatchMsg i vs.length nameTypes.length)
    else if i = 0 then
      match buildFirstRow nameTypes vs with
      | .error e => .error e
      | .ok (fs, row) =>
        match buildRows nameTypes (fs.map some) (i + 1) rest with
        | .error e => .error e
        | .ok (finalFields, rows) => .ok (finalFields, row :: rows)
    else
      match buildRows nameTypes fields (i + 1) rest with
      | .error e => .error e
      | .ok (finalFields, rows) => .ok (finalFields, buildLaterRow vs :: rows)

/-- Embeds `Conn.buildResultset` from `src/proxy/conn_resultset.go` (lines
33–71).  The field-descriptor slice starts as `len(nameTypes)` nil slots
(`make([]*mysql.Field, len(nameTypes))`). -/
def buildResultset (nameTypes : List TableColumn)
    (values : List (List GoValue)) : Except String Resultset :=
  match buildRows nameTypes (List.replicate nameTypes.length none) 0 values with
  | .error e => .error e
  | .ok (fields, rows) => .ok { Fields := fields, RowDatas := rows }

/-! ### The client connection and `writeResultset`

`Conn.writePacket`, `Conn.writeEOF` and `Conn.flush` are defined in other
files of the `proxy` package that are not among the provided sources;
they are modelled from the spec (§4.4, §6).  A `Packet` records which of
the framed packets of the result-set sequence was written. -/

/-- One MySQL packet of the result-set sequence, by payload. -/
inductive Packet where
  | columnCount (lenc : List Nat)
  | fieldPkt (f : Option Field)
  | eof (status : Nat)
  | rowPkt (data : List Nat)
  deriving DecidableEq

/-- The observable connection state: the last-affected-rows count and the
sequence of packets written so far. -/
structure Conn where
  affectedRows : Int
  sent : List Packet
  deriving DecidableEq

/-- Modelled from the spec (§4.4): `Conn.writePacket` frames and writes
one packet; every write can fail with a connection error.  The connection
is abstracted by `failAt`, the index (among this connection's write
attempts) of the first failing write, if any; a failed write transmits
nothing. -/
def writePacket (failAt : Option Nat) (c : Conn) (p : Packet) :
    Except Unit Conn :=
  if failAt = some c.sent.length then .error ()
  else .ok { c with sent := c.sent ++ [p] }

/-- Modelled from the spec (§4.4, §6): `Conn.writeEOF` writes one
EOF/status packet reflecting the given status flags. -/
def writeEOF (failAt : Option Nat) (c : Conn) (status : Nat) :
    Except Unit Conn :=
  writePacket failAt c (.eof status)

/-- Modelled from the spec (§4.4): `Conn.flush` flushes buffered output;
it writes no packet of its own but can also fail. -/
def flush (failAt : Option Nat) (c : Conn) : Except Unit Conn :=
  if failAt = some c.sent.length then .error () else .ok c

/-- One of the two packet loops of `Conn.writeResultset` (fields, lines
82–88; rows, lines 94–100): write one packet per element, stopping at the
first failure. -/
def writeList {α : Type} (failAt : Option Nat) (mk : α → Packet) (c : Conn) :
    List α → Conn × Bool
  | [] => (c, true)
  | x :: xs =>
    match writePacket failAt c (mk x) with
    | .error _ => (c, false)
    | .ok c1 => writeList failAt mk c1 xs

/-- Writing a pre-assembled packet list, stopping at the first failure;
used to state and prove properties of the packet sequence. -/
def sendAll (failAt : Option Nat) (c : Conn) : List Packet → Conn × Bool
  | [] => (c, true)
  | p :: ps =>
    match writePacket failAt c p with
    | .error _ => (c, false)
    | .ok c1 => sendAll failAt c1 ps

/-- Embeds `Conn.writeResultset` from `src/proxy/conn_resultset.go` (lines
73–108): reset `affectedRows` to `-1`, then write the column-count
packet, the field packets, an EOF, the row packets, a final EOF, and
flush; the first failing write aborts the sequence and propagates the
error (returned here as the `false` component). -/
def writeResultset (failAt : Option Nat) (status : Nat) (r : Resultset)
    (c0 : Conn) : Conn × Bool :=
  let c := { c0 with affectedRows := -1 }
  match writePacket failAt c
      (.columnCount (PutLengthEncodedInt r.Fields.length)) with
  | .error _ => (c, false)
  | .ok c1 =>
    match writeList failAt Packet.fieldPkt c1 r.Fields with
    | (c2, false) => (c2, false)
    | (c2, true) =>
      match writeEOF failAt c2 status with
      | .error _ => (c2, false)
      | .ok c3 =>
        match writeList failAt Packet.rowPkt c3 r.RowDatas with
        | (c4, false) => (c4, false)
        | (c4, true) =>
          match writeEOF failAt c4 status with
          | .error _ => (c4, false)
          | .ok c5 =>
            match flush failAt c5 with
            | .error _ => (c5, false)
            | .ok c6 => (c6, true)

/-- The packet sequence the spec prescribes for a result set: column
count, one packet per field, EOF, one packet per row, EOF.  Stated from
the spec's words, to be compared with what `writeResultset` emits. -/
def expectedPackets (status : Nat) (r : Resultset) : List Packet :=
  Packet.columnCount (PutLengthEncodedInt r.Fields.length) ::
    (r.Fields.map Packet.fieldPkt ++
      Packet.eof status ::
        (r.RowDatas.map Packet.rowPkt ++ [Packet.eof status]))

/-! ### Schema manager: tables, caches, overrides

`TableInfo`, `NewTableInfo`, `RowCache`, the `schema` package constants
and the `CachePool` are declared outside the provided sources and are
modelled from the spec (§3, §4.2); the decision logic below
(`SchemaInfo.override`, `CreateOrUpdateTable`, `SetQueryCacheSize`) is
translated from `src/vt/tabletserver/schema_info.go`. -/

/-- Modelled from the spec: `schema.CACHE_NONE` (no row cache). -/
def CACHE_NONE : Nat := 0

/-- Modelled from the spec: `schema.CACHE_RW` (read-write row cache). -/
def CACHE_RW : Nat := 1

/-- Modelled from the spec: `schema.CACHE_W` (write-only aliased cache). -/
def CACHE_W : Nat := 2

/-- Modelled from the spec: a row-cache instance; identified by the table
it was constructed for.  `WRITE_ONLY` aliasing shares one instance between
two registry entries. -/
structure RowCache where
  tableName : String
  deriving DecidableEq

/-- Modelled from the spec (§4.2): `NewRowCache(table, pool)` constructs a
row cache scoped to the given table and the shared pool. -/
def NewRowCache (tableName : String) : RowCache :=
  { tableName := tableName }

/-- Modelled from the spec (§3): the table registry entry (`TableInfo`,
defined outside the provided sources): assigned cache type, reference to
a row cache (if any), and the primary-key columns. -/
structure TableInfo where
  CacheType : Nat := CACHE_NONE
  Cache : Option RowCache := none
  PKColumns : List String := []
  deriving DecidableEq

/-- Modelled from the spec (§4.2): `TableInfo.SetPK` applies an explicit
PK column list to the entry, failing on a malformed column set; modelled
as: the empty column list is malformed. -/
def setPK (t : TableInfo) (pks : List String) : Except Unit TableInfo :=
  if pks.isEmpty then .error () else .ok { t with PKColumns := pks }

/-- Embeds `OverrideCacheDesc` from `src/vt/tabletserver/schema_info.go` (lines
58–62).  `Typ` and `Pfx` are the source's `Type` and `Prefix` fields,
renamed for Lean; `Pfx` is never read by the covered code. -/
structure OverrideCacheDesc where
  Typ : String
  Pfx : String := ""
  Table : String := ""
  deriving DecidableEq

/-- Embeds `SchemaOverride` from `src/vt/tabletserver/schema_info.go` (lines
64–68); `PKColumns = none` is the Go nil slice. -/
structure SchemaOverride where
  Name : String
  PKColumns : Option (List String) := none
  Cache : Option OverrideCacheDesc := none
  deriving DecidableEq

/-- The table registry: Go's `map[string]*TableInfo`, as an association
list with at most one binding per name. -/
abbrev Tables := List (String × TableInfo)

/-- Lookup in the table registry (`si.tables[name]`). -/
def mapLookup (m : Tables) (k : String) : Option TableInfo :=
  match m with
  | [] => none
  | (k1, v) :: rest => if k1 = k then some v else mapLookup rest k

/-- Insert/replace in the table registry (`si.tables[name] = ti`). -/
def mapInsert (m : Tables) (k : String) (v : TableInfo) : Tables :=
  match m with
  | [] => [(k, v)]
  | (k1, v1) :: rest =>
    if k1 = k then (k, v) :: rest else (k1, v1) :: mapInsert rest k v

/-- Modelled from the spec (§3, §4.1): the external LRU plan cache
(`cache.LRUCache`), reduced to the observations the covered code makes of
it: the keys of the resident entries and the configured byte budget.
`Clear` empties it; `SetCapacity` reconfigures the budget. -/
structure LRUCache where
  entries : List String
  capacity : Int
  deriving DecidableEq

/-- The call `queries.Clear()`: the plan cache is emptied; the budget stays. -/
def LRUCache.clear (c : LRUCache) : LRUCache :=
  { c with entries := [] }

/-- The plan cache's entry count (`size` in the spec's words). -/
def LRUCache.size (c : LRUCache) : Nat :=
  c.entries.length

/-- The call `queries.SetCapacity(n)`: reconfigure the byte budget. -/
def LRUCache.SetCapacity (c : LRUCache) (n : Int) : LRUCache :=
  { c with capacity := n }

/-- Embeds `SchemaInfo` from `src/vt/tabletserver/schema_info.go` (lines 70–77),
restricted to the state the claims observe: the table registry, the
override rules, the plan LRU cache, and whether the row-cache pool is
closed (`cachePool.IsClosed()`). -/
structure SchemaInfo where
  tables : Tables
  overrides : List SchemaOverride
  queries : LRUCache
  cachePoolClosed : Bool
  deriving DecidableEq

/-- One iteration of the loop of `SchemaInfo.override` (lines 106–152):
resolve the entry (skip when absent), apply an explicit PK override (skip
the rest on failure), then — when the cache pool is open and the rule has
a cache descriptor — apply the cache policy.  The source mutates the
shared `*TableInfo` in place; here every mutation is written back into
the registry at once, so that the `"W"` case's `CacheType` assignment is
visible before the aliasing-target checks, exactly as in the source. -/
def applyOverride (cachePoolClosed : Bool) (tables : Tables)
    (ov : SchemaOverride) : Tables :=
  match mapLookup tables ov.Name with
  | none => tables
  | some table0 =>
    let pkStep : Option TableInfo :=
      match ov.PKColumns with
      | none => some table0
      | some pks =>
        match setPK table0 pks with
        | .error _ => none
        | .ok t => some t
    match pkStep with
    | none => tables
    | some table1 =>
      let tables1 := mapInsert tables ov.Name table1
      match ov.Cache with
      | none => tables1
      | some desc =>
        if cachePoolClosed then tables1
        else if desc.Typ = "RW" then
          mapInsert tables1 ov.Name
            { table1 with CacheType := CACHE_RW,
                          Cache := some (NewRowCache ov.Name) }
        else if desc.Typ = "W" then
          let table2 := { table1 with CacheType := CACHE_W }
          let tables2 := mapInsert tables1 ov.Name table2
          if desc.Table = "" then tables2
          else
            match mapLookup tables2 desc.Table with
            | none => tables2
            | some totable =>
              match totable.Cache with
              | none => tables2
              | some cache =>
                mapInsert tables2 ov.Name { table2 with Cache := some cache }
        else tables1

/-- Embeds `SchemaInfo.override` (lines 106–152): apply every override rule in
order. -/
def SchemaInfo.override (si : SchemaInfo) : SchemaInfo :=
  { si with
      tables := si.overrides.foldl (applyOverride si.cachePoolClosed) si.tables }

/-- The metadata store's reply to the `information_schema` query of
`CreateOrUpdateTable` (line 187): either no row (table does not exist) or
one row carrying table type, raw creation time and comment. -/
inductive StoreReply where
  | absent
  | present (tableType : String) (createTimeRaw : List Nat) (comment : String)
  deriving DecidableEq

/-- Embeds `SchemaInfo.CreateOrUpdateTable` (lines 177–237).  The collaborators
are passed as arguments: `reply` is the metadata store's answer,
`createTimeValue` the outcome of `sqltypes.BuildValue` on the raw
creation time, and `newTableInfo` the outcome of `NewTableInfo` (both of
which live outside the provided sources and return without registering on
failure).  When the name is already registered, the whole plan cache is
cleared before the entry is replaced. -/
def CreateOrUpdateTable (si : SchemaInfo) (tableName : String)
    (reply : StoreReply) (createTimeValue : Option GoValue)
    (newTableInfo : Option TableInfo) : SchemaInfo :=
  match reply with
  | .absent => si
  | .present _ _ _ =>
    match createTimeValue with
    | none => si
    | some _ =>
      match newTableInfo with
      | none => si
      | some tableInfo =>
        let si1 :=
          if (mapLookup si.tables tableName).isSome then
            { si with queries := si.queries.clear }
          else si
        { si1 with tables := mapInsert si1.tables tableName tableInfo }

/-- The outcome of a call that can hit `log.Fatalf`: `fatal` is the
process-ending abort — the logged message is recorded, nothing is
returned to the caller, and no later state of this process exists —
while `ok` is a normal return carrying the new state. -/
inductive FatalOr (α : Type) where
  | fatal (msg : String)
  | ok (a : α)
  deriving DecidableEq

/-- Embeds `SchemaInfo.SetQueryCacheSize` (lines 267–272): a non-positive
size hits `log.Fatalf("cache size %v out of range", size)` — the process
terminates; no invalid-argument condition is returned to the caller —
and a positive size is passed to the LRU cache's `SetCapacity`. -/
def SetQueryCacheSize (si : SchemaInfo) (size : Int) :
    FatalOr SchemaInfo :=
  if size ≤ 0 then
    .fatal ("cache size " ++ toString size ++ " out of range")
  else
    .ok { si with queries := si.queries.SetCapacity size }

/-! ### ExecPlan statistics -/

/-- Go `int64` arithmetic: wrap to the signed 64-bit range. -/
def i64 (x : Int) : Int :=
  (x + 9223372036854775808) % 18446744073709551616 - 9223372036854775808

/-- The statistics block of `ExecPlan` (lines 25–33): query count,
cumulative duration (`time.Duration`, an `int64`), row count and error
count.  The embedded compiled plan and the mutex are not represented; the
mutex makes each `AddStats`/`Stats` call atomic, so concurrent executions
are exactly the sequential interleavings quantified over below. -/
structure ExecPlan where
  QueryCount : Int := 0
  Time : Int := 0
  RowCount : Int := 0
  ErrorCount : Int := 0
  deriving DecidableEq

/-- Embeds `ExecPlan.AddStats` (lines 39–46): accumulate into the four counters
(whole call atomic under the per-plan lock). -/
def AddStats (ep : ExecPlan) (queryCount duration rowCount errorCount : Int) :
    ExecPlan :=
  { QueryCount := i64 (ep.QueryCount + queryCount),
    Time := i64 (ep.Time + duration),
    RowCount := i64 (ep.RowCount + rowCount),
    ErrorCount := i64 (ep.ErrorCount + errorCount) }

/-- Embeds `ExecPlan.Stats` (lines 48–56): a consistent snapshot of the four
counters. -/
def Stats (ep : ExecPlan) : Int × Int × Int × Int :=
  (ep.QueryCount, ep.Time, ep.RowCount, ep.ErrorCount)

/-- The argument bundle of one `AddStats` call. -/
structure StatCall where
  q : Int
  d : Int
  r : Int
  e : Int
  deriving DecidableEq

/-- Apply a sequence of `AddStats` calls in order. -/
def applyCalls (ep : ExecPlan) (calls : List StatCall) : ExecPlan :=
  calls.foldl (fun p c => AddStats p c.q c.d c.r c.e) ep

/-- A plan whose counters start at zero. -/
def zeroPlan : ExecPlan := {}

/-! ### Concrete instances used by counterexamples and witnesses -/

/-- A registry with one uncached table `t` and one `WRITE_ONLY` override
whose aliasing target `missing` is not in the registry. -/
def c1si : SchemaInfo :=
  { tables := [("t", { CacheType := CACHE_NONE, Cache := none, PKColumns := [] })],
    overrides := [{ Name := "t", PKColumns := none,
                    Cache := some { Typ := "W", Pfx := "", Table := "missing" } }],
    queries := { entries := [], capacity := 0 },
    cachePoolClosed := false }

/-- A schema-manager state with table `t` registered and a non-empty plan
cache. -/
def c2si : SchemaInfo :=
  { tables := [("t", {})],
    overrides := [],
    queries := { entries := ["select 1", "select 2"], capacity := 64 },
    cachePoolClosed := false }

/-- A two-field, one-row resultset. -/
def c4r : Resultset :=
  { Fields := [none, some {}], RowDatas := [[7]] }

/-- Column metadata matching the row `{id: 7, name: "alice", score: null}`. -/
def c6Meta : List TableColumn :=
  [ { Name := "id", SqlType := MYSQL_TYPE_LONGLONG, Collation := "binary",
      IsUnsigned := false },
    { Name := "name", SqlType := MYSQL_TYPE_VARCHAR,
      Collation := "utf8_general_ci", IsUnsigned := false },
    { Name := "score", SqlType := MYSQL_TYPE_DOUBLE, Collation := "binary",
      IsUnsigned := false } ]

/-- The row `{id: 7 (signed int), name: "alice" (string), score: null}`. -/
def c6Row : List GoValue := [.vint 7, .vstr "alice", .vnil]

/-- One-column metadata for the mismatch witness. -/
def c7Meta : List TableColumn :=
  [ { Name := "a", SqlType := MYSQL_TYPE_LONGLONG, Collation := "binary",
      IsUnsigned := false } ]

/-- A row list whose second row has two columns against one metadata
column. -/
def c7Rows : List (List GoValue) := [[.vint 1], [.vint 2, .vint 3]]

/-- Two `AddStats` argument bundles. -/
def c9l1 : List StatCall := [⟨1, 2, 3, 4⟩, ⟨5, 6, 7, 8⟩]

/-- The same two bundles in the opposite order. -/
def c9l2 : List StatCall := [⟨5, 6, 7, 8⟩, ⟨1, 2, 3, 4⟩]

/-! ## Helper lemmas -/

theorem mapLookup_mapInsert_self (m : Tables) (k : String) (v : TableInfo) :
    mapLookup (mapInsert m k v) k = some v := by
  induction m with
  | nil => simp [mapInsert, mapLookup]
  | cons p rest ih =>
    obtain ⟨k1, v1⟩ := p
    by_cases h : k1 = k <;> simp [mapInsert, mapLookup, h, ih]

theorem mapLookup_mapInsert_ne (m : Tables) (k k2 : String) (v : TableInfo)
    (h : k2 ≠ k) : mapLookup (mapInsert m k v) k2 = mapLookup m k2 := by
  induction m with
  | nil => simp [mapInsert, mapLookup, Ne.symm h]
  | cons p rest ih =>
    obtain ⟨k1, v1⟩ := p
    by_cases h1 : k1 = k
    · subst h1
      simp [mapInsert, mapLookup, Ne.symm h]
    · simp [mapInsert, mapLookup, h1, ih]

theorem mapInsert_mapInsert (m : Tables) (k : String) (v w : TableInfo) :
    mapInsert (mapInsert m k v) k w = mapInsert m k w := by
  induction m with
  | nil => simp [mapInsert]
  | cons p rest ih =>
    obtain ⟨k1, v1⟩ := p
    by_cases h : k1 = k <;> simp [mapInsert, h, ih]

/-! ## Claim theorems -/

/-- Claim C5: `formatField` sets the field's wire attributes by the sample
value's category — signed integers give the long-long type, binary and
not-null flags and charset 63; unsigned integers additionally the
unsigned flag; floats only charset 63; strings and byte slices the
variable-length-string type and charset 33; nil leaves the field
untouched without error; every other category fails with an
unsupported-type condition naming the offending type. -/
theorem formatField_spec (field : Field) :
    (∀ v, isSignedInt v = true →
      formatField field v =
        .ok { field with Charset := 63, Typ := MYSQL_TYPE_LONGLONG,
                         Flag := BINARY_FLAG ||| NOT_NULL_FLAG }) ∧
    (∀ v, isUnsignedInt v = true →
      formatField field v =
        .ok { field with Charset := 63, Typ := MYSQL_TYPE_LONGLONG,
                         Flag := BINARY_FLAG ||| NOT_NULL_FLAG ||| UNSIGNED_FLAG }) ∧
    (∀ v, isFloat v = true →
      formatField field v = .ok { field with Charset := 63 }) ∧
    (∀ v, isStrOrBytes v = true →
      formatField field v =
        .ok { field with Charset := 33, Typ := MYSQL_TYPE_VARCHAR }) ∧
    formatField field .vnil = .ok field ∧
    (∀ t, formatField field (.other t) =
      .error ("unsupport type " ++ t ++ " for resultset")) := by
  refine ⟨?_, ?_, ?_, ?_, rfl, fun t => rfl⟩ <;>
    · intro v hv
      cases v <;> first
        | rfl
        | simp [isSignedInt, isUnsignedInt, isFloat, isStrOrBytes] at hv

/-- Witness for C5: `formatField_spec` at the zero field and one sample
value per category. -/
theorem formatField_spec_witness :
    formatField {} (.vint 7) =
      .ok { Charset := 63, Typ := MYSQL_TYPE_LONGLONG,
            Flag := BINARY_FLAG ||| NOT_NULL_FLAG } ∧
    formatField {} (.vu8 3) =
      .ok { Charset := 63, Typ := MYSQL_TYPE_LONGLONG,
            Flag := BINARY_FLAG ||| NOT_NULL_FLAG ||| UNSIGNED_FLAG } ∧
    formatField {} (.vf64 "2.5") = .ok { Charset := 63 } ∧
    formatField {} (.vstr "a") =
      .ok { Charset := 33, Typ := MYSQL_TYPE_VARCHAR } ∧
    formatField {} .vnil = .ok {} ∧
    formatField {} (.other "chan int") =
      .error ("unsupport type " ++ "chan int" ++ " for resultset") := by
  obtain ⟨h1, h2, h3, h4, h5, h6⟩ := formatField_spec {}
  exact ⟨h1 (.vint 7) rfl, h2 (.vu8 3) rfl, h3 (.vf64 "2.5") rfl,
    h4 (.vstr "a") rfl, h5, h6 "chan int"⟩

/-- Claim C6: encoding the single row `{id: 7, name: "alice", score: null}`
against matching 3-column metadata yields exactly three populated field
descriptors (long-long with binary+not-null flags and charset 63 for
`id`, varchar/utf8 for `name`, the schema's type for `score`, each
carrying the schema's type, collation charset and signedness) and one row
buffer whose first two values are length-prefixed encodings and whose
third value is the single NULL sentinel byte `0xfb`. -/
theorem buildResultset_single_row :
    buildResultset c6Meta [c6Row] = .ok
      { Fields :=
          [ some { Name := strBytes "id", Charset := 63,
                   Typ := MYSQL_TYPE_LONGLONG,
                   Flag := BINARY_FLAG ||| NOT_NULL_FLAG, IsUnsigned := false },
            some { Name := strBytes "name", Charset := 33,
                   Typ := MYSQL_TYPE_VARCHAR, Flag := 0, IsUnsigned := false },
            some { Name := strBytes "score", Charset := 63,
                   Typ := MYSQL_TYPE_DOUBLE, Flag := 0, IsUnsigned := false } ],
        RowDatas :=
          [ PutLengthEncodedString (Raw MYSQL_TYPE_LONGLONG (.vint 7) false) ++
              (PutLengthEncodedString
                (Raw MYSQL_TYPE_VARCHAR (.vstr "alice") false) ++
                [0xfb]) ] } := rfl

/-- Claim C10: `buildResultset` on an empty row list succeeds with one nil
field-descriptor slot per metadata column (descriptors are only built
while processing the first row) and no row buffers. -/
theorem buildResultset_empty_rows (nameTypes : List TableColumn) :
    ∃ r, buildResultset nameTypes [] = .ok r ∧
      r.Fields.length = nameTypes.length ∧
      (∀ f ∈ r.Fields, f = none) ∧
      r.RowDatas = [] := by
  refine ⟨_, rfl, ?_, ?_, rfl⟩
  · simp
  · intro f hf
    exact List.eq_of_mem_replicate hf

/-- Claim C2, code-bug evidence: at the failing inputs 0 and -1,
`SetQueryCacheSize` takes the process-ending `log.Fatalf` path with the
message `"cache size %v out of range"` — no invalid-argument condition is
ever returned to the caller and no post-call state of the process exists
to observe a budget in, contrary to the claim — while a positive size
(here 7) returns normally with the budget updated. -/
theorem setQueryCacheSize_fatal_on_nonpositive :
    SetQueryCacheSize c2si 0 =
      .fatal ("cache size " ++ toString (0 : Int) ++ " out of range") ∧
    SetQueryCacheSize c2si (-1) =
      .fatal ("cache size " ++ toString (-1 : Int) ++ " out of range") ∧
    SetQueryCacheSize c2si 7 =
      .ok { c2si with queries := { c2si.queries with capacity := 7 } } :=
  ⟨rfl, rfl, rfl⟩

/-- Claim C3: a successful `CreateOrUpdateTable` of a name that is already
registered replaces the entry and clears the entire plan cache — its size
is 0 immediately afterward, whatever it contained before. -/
theorem createOrUpdateTable_replace_clears_plan_cache (si : SchemaInfo)
    (name tblType cmt : String) (ctRaw : List Nat) (v : GoValue)
    (ti : TableInfo) (h : (mapLookup si.tables name).isSome = true) :
    (CreateOrUpdateTable si name (.present tblType ctRaw cmt) (some v)
        (some ti)).queries.size = 0 ∧
    (CreateOrUpdateTable si name (.present tblType ctRaw cmt) (some v)
        (some ti)).tables = mapInsert si.tables name ti ∧
    mapLookup (CreateOrUpdateTable si name (.present tblType ctRaw cmt)
        (some v) (some ti)).tables name = some ti := by
  refine ⟨?_, ?_, ?_⟩ <;>
    simp [CreateOrUpdateTable, h, LRUCache.clear, LRUCache.size,
      mapLookup_mapInsert_self]

/-- Witness for C3: replacing the entry `t` of `c2si`, whose plan cache
holds two entries, leaves an empty plan cache. -/
theorem createOrUpdateTable_replace_clears_plan_cache_witness :
    (CreateOrUpdateTable c2si "t" (.present "BASE TABLE" [55] "") (some (.vint 7))
        (some {})).queries.size = 0 ∧
    (CreateOrUpdateTable c2si "t" (.present "BASE TABLE" [55] "") (some (.vint 7))
        (some {})).tables = mapInsert c2si.tables "t" {} ∧
    mapLookup (CreateOrUpdateTable c2si "t" (.present "BASE TABLE" [55] "")
        (some (.vint 7)) (some {})).tables "t" = some {} :=
  createOrUpdateTable_replace_clears_plan_cache c2si "t" "BASE TABLE" ""
    [55] (.vint 7) {} rfl

/-- Claim C8: a nonexistent table is a no-op on both paths — a load whose
metadata query returns no row leaves the whole manager state (and so the
registry) unchanged, and an override rule whose name is not registered
leaves the registry unchanged; neither creates a cache nor returns an
error. -/
theorem missing_table_noop (si : SchemaInfo) (name : String)
    (ctv : Option GoValue) (nti : Option TableInfo) (pc : Bool)
    (tables : Tables) (ov : SchemaOverride)
    (h : mapLookup tables ov.Name = none) :
    CreateOrUpdateTable si name .absent ctv nti = si ∧
    applyOverride pc tables ov = tables := by
  constructor
  · rfl
  · simp [applyOverride, h]

/-- Witness for C8: `missing_table_noop` at `c2si` and an override naming
the unregistered table `ghost`. -/
theorem missing_table_noop_witness :
    CreateOrUpdateTable c2si "ghost" .absent none none = c2si ∧
    applyOverride false c2si.tables
      { Name := "ghost", PKColumns := none, Cache := none } = c2si.tables :=
  missing_table_noop c2si "ghost" none none false c2si.tables
    { Name := "ghost", PKColumns := none, Cache := none } rfl

/-- Counterexample to claim C1: in `c1si` the table `t` is uncached
(`CacheType = NONE`) and its `WRITE_ONLY` override names the unregistered
target `missing`; after the override resolver runs, `t` has
`CacheType = CACHE_W ≠ CACHE_NONE` while still holding no cache — the
rule's cache attachment is skipped, but the `CacheType` assignment
happens before the target checks and is not undone. -/
theorem writeOnly_missing_target_cacheType_cex :
    mapLookup (SchemaInfo.override c1si).tables "t" =
      some { CacheType := CACHE_W, Cache := none, PKColumns := [] } ∧
    CACHE_W ≠ CACHE_NONE :=
  ⟨rfl, by decide⟩

/-- Claim C1 as amended: for every `WRITE_ONLY` override rule (without a
PK override) whose aliasing target is empty, missing from the registry,
or itself cache-less, the resolver attaches no cache to the source table
— its `Cache` stays `nil` — but it sets the source's `CacheType` to
`CACHE_W` before the target checks, so the `CacheType` ends as
`WRITE_ONLY`, not `NONE`. -/
theorem writeOnly_missing_target_sets_cache_w (si : SchemaInfo)
    (ov : SchemaOverride) (desc : OverrideCacheDesc) (table : TableInfo)
    (hovs : si.overrides = [ov])
    (hpool : si.cachePoolClosed = false)
    (hpk : ov.PKColumns = none)
    (hcache : ov.Cache = some desc)
    (htyp : desc.Typ = "W")
    (hlook : mapLookup si.tables ov.Name = some table)
    (hnone : table.Cache = none)
    (htarget : desc.Table = "" ∨ mapLookup si.tables desc.Table = none ∨
      ∃ tt, mapLookup si.tables desc.Table = some tt ∧ tt.Cache = none) :
    mapLookup (SchemaInfo.override si).tables ov.Name =
      some { CacheType := CACHE_W, Cache := none,
             PKColumns := table.PKColumns } := by
  obtain ⟨ct, tcache, tpk⟩ := table
  simp only [TableInfo.Cache] at hnone
  subst hnone
  simp only [SchemaInfo.override, hovs, hpool, List.foldl_cons, List.foldl_nil]
  simp only [applyOverride, hlook, hpk, hcache, htyp, Bool.false_eq_true,
    if_false, reduceIte, mapInsert_mapInsert]
  rw [if_neg (by decide : ¬ ("W" = "RW"))]
  by_cases hT : desc.Table = ""
  · rw [if_pos hT, mapLookup_mapInsert_self]
  · rw [if_neg hT]
    by_cases hD : desc.Table = ov.Name
    · rw [hD, mapLookup_mapInsert_self]
      simp [mapLookup_mapInsert_self]
    · rw [mapLookup_mapInsert_ne _ _ _ _ hD]
      rcases htarget with h | h | ⟨tt, hTT, hTTc⟩
      · exact absurd h hT
      · rw [h]
        simp [mapLookup_mapInsert_self]
      · rw [hTT]
        obtain ⟨ttc, ttcache, ttpk⟩ := tt
        simp only [TableInfo.Cache] at hTTc
        subst hTTc
        simp [mapLookup_mapInsert_self]

/-- Int64 wrap-around commutes with addition. -/
theorem i64_i64_add (x y : Int) : i64 (i64 x + y) = i64 (x + y) := by
  unfold i64
  omega

/-- Zero is a fixed point of the int64 wrap. -/
theorem i64_zero : i64 0 = 0 := by
  unfold i64
  omega

/-- Unfolding `applyCalls` is definitionally a fold. -/
theorem applyCalls_cons (ep : ExecPlan) (x : StatCall) (l : List StatCall) :
    applyCalls ep (x :: l) = applyCalls (AddStats ep x.q x.d x.r x.e) l := rfl

/-- Folding `AddStats` from wrapped counters yields the wrapped
componentwise sums. -/
theorem applyCalls_eq (l : List StatCall) : ∀ a b c d : Int,
    applyCalls { QueryCount := i64 a, Time := i64 b, RowCount := i64 c,
                 ErrorCount := i64 d } l =
      { QueryCount := i64 (a + (l.map StatCall.q).sum),
        Time := i64 (b + (l.map StatCall.d).sum),
        RowCount := i64 (c + (l.map StatCall.r).sum),
        ErrorCount := i64 (d + (l.map StatCall.e).sum) } := by
  induction l with
  | nil =>
    intro a b c d
    simp [applyCalls]
  | cons x l ih =>
    intro a b c d
    rw [applyCalls_cons]
    have hAdd :
        AddStats { QueryCount := i64 a, Time := i64 b, RowCount := i64 c,
                   ErrorCount := i64 d } x.q x.d x.r x.e =
          { QueryCount := i64 (a + x.q), Time := i64 (b + x.d),
            RowCount := i64 (c + x.r), ErrorCount := i64 (d + x.e) } := by
      simp [AddStats, i64_i64_add]
    rw [hAdd, ih (a + x.q) (b + x.d) (c + x.r) (d + x.e)]
    simp [Int.add_assoc]

/-- Every value in the first list belongs to a non-`other` category, so
`formatField` succeeds on it. -/
theorem formatField_ok_of_not_other (f : Field) (v : GoValue)
    (h : isOther v = false) : ∃ f1, formatField f v = .ok f1 := by
  cases v <;> first
    | exact ⟨_, rfl⟩
    | simp [isOther] at h

/-- The helper `buildFirstRow` succeeds when no value of the first row falls in the
unsupported category. -/
theorem buildFirstRow_ok (nts : List TableColumn) (vs : List GoValue)
    (h : ∀ v ∈ vs, isOther v = false) :
    ∃ out, buildFirstRow nts vs = .ok out := by
  induction vs generalizing nts with
  | nil => cases nts <;> exact ⟨_, rfl⟩
  | cons v vs ih =>
    cases nts with
    | nil => exact ⟨_, rfl⟩
    | cons nt nts =>
      obtain ⟨f1, hf⟩ := formatField_ok_of_not_other
        { Name := strBytes nt.Name } v (h v (List.mem_cons_self _ _))
      obtain ⟨⟨fs, row⟩, hout⟩ := ih nts (fun w hw => h w (List.mem_cons_of_mem _ hw))
      refine ⟨({ f1 with Typ := nt.SqlType, Charset := CollationNames nt.Collation,
                         IsUnsigned := nt.IsUnsigned } :: fs,
        encodeCell { f1 with Typ := nt.SqlType, Charset := CollationNames nt.Collation,
                             IsUnsigned := nt.IsUnsigned } v ++ row), ?_⟩
      simp only [buildFirstRow, hf, hout]

/-- The row loop at a positive row index: the first length mismatch,
with every earlier row rectangular, surfaces as the index-naming error. -/
theorem buildRows_bad (meta : List TableColumn) (fields : List (Option Field)) :
    ∀ (rows : List (List GoValue)) (idx i : Nat) (vs : List GoValue),
      1 ≤ idx →
      rows.get? i = some vs →
      vs.length ≠ meta.length →
      (∀ j, j < i → ∀ vs2, rows.get? j = some vs2 → vs2.length = meta.length) →
      buildRows meta fields idx rows =
        .error (rowMismatchMsg (idx + i) vs.length meta.length) := by
  intro rows
  induction rows with
  | nil =>
    intro idx i vs _ hget
    simp at hget
  | cons r rest ih =>
    intro idx i vs hidx hget hbad hgood
    cases i with
    | zero =>
      simp only [List.get?] at hget
      obtain rfl : r = vs := by injection hget
      simp only [buildRows, if_pos hbad, Nat.add_zero]
    | succ i2 =>
      have hr : r.length = meta.length := hgood 0 (Nat.succ_pos _) r rfl
      have hget2 : rest.get? i2 = some vs := hget
      have hgood2 : ∀ j, j < i2 → ∀ vs2, rest.get? j = some vs2 →
          vs2.length = meta.length :=
        fun j hj vs2 hv => hgood (j + 1) (Nat.succ_lt_succ hj) vs2 hv
      have hrec := ih (idx + 1) i2 vs (by omega) hget2 hbad hgood2
      have harith : idx + 1 + i2 = idx + (i2 + 1) := by omega
      rw [harith] at hrec
      simp only [buildRows, if_neg (by omega : ¬ r.length ≠ meta.length),
        if_neg (by omega : ¬ idx = 0), hrec]

/-- Claim C7: when a row's column count differs from the metadata's —
every earlier row being rectangular and (when the offender is not the
first row) the first row formattable — `buildResultset` fails with the
error naming that row's index and both counts, and produces no
resultset. -/
theorem buildResultset_row_mismatch (meta : List TableColumn)
    (rows : List (List GoValue)) (i : Nat) (vs : List GoValue)
    (hget : rows.get? i = some vs)
    (hbad : vs.length ≠ meta.length)
    (hgood : ∀ j, j < i → ∀ vs2, rows.get? j = some vs2 →
      vs2.length = meta.length)
    (hrow0 : ∀ vs0, 0 < i → rows.get? 0 = some vs0 →
      ∀ v ∈ vs0, isOther v = false) :
    buildResultset meta rows =
      .error (rowMismatchMsg i vs.length meta.length) := by
  cases rows with
  | nil => simp at hget
  | cons r rest =>
    cases i with
    | zero =>
      simp only [List.get?] at hget
      obtain rfl : r = vs := by injection hget
      simp only [buildResultset, buildRows, if_pos hbad]
    | succ i2 =>
      have hr : r.length = meta.length := hgood 0 (Nat.succ_pos _) r rfl
      have hget2 : rest.get? i2 = some vs := hget
      have hgood2 : ∀ j, j < i2 → ∀ vs2, rest.get? j = some vs2 →
          vs2.length = meta.length :=
        fun j hj vs2 hv => hgood (j + 1) (Nat.succ_lt_succ hj) vs2 hv
      obtain ⟨⟨fs, row⟩, hfr⟩ :=
        buildFirstRow_ok meta r (hrow0 r (Nat.succ_pos _) rfl)
      have hrec := buildRows_bad meta (fs.map some) rest 1 i2 vs (le_refl 1)
        hget2 hbad hgood2
      have harith : 1 + i2 = i2 + 1 := by omega
      rw [harith] at hrec
      simp only [buildResultset, buildRows,
        if_neg (by omega : ¬ r.length ≠ meta.length), if_pos rfl, hfr, hrec,
        if_true]

/-- Witness for C7: `buildResultset_row_mismatch` on `c7Rows`, whose
second row has 2 columns against 1 metadata column. -/
theorem buildResultset_row_mismatch_witness :
    buildResultset c7Meta c7Rows = .error (rowMismatchMsg 1 2 1) := by
  have h := buildResultset_row_mismatch c7Meta c7Rows 1 [.vint 2, .vint 3]
    rfl (by decide)
    (by
      intro j hj vs2 hv
      have hj0 : j = 0 := by omega
      subst hj0
      simp only [c7Rows, List.get?] at hv
      obtain rfl : ([.vint 1] : List GoValue) = vs2 := by injection hv
      rfl)
    (by
      intro vs0 _ hv v hvmem
      simp only [c7Rows, List.get?] at hv
      obtain rfl : ([.vint 1] : List GoValue) = vs0 := by injection hv
      simp only [List.mem_singleton] at hvmem
      subst hvmem
      rfl)
  simpa using h

/-- Claim C9: applying any finite multiset of `AddStats` calls to a plan
with zero counters is order-independent — each call is atomic under the
per-plan lock, so every concurrent schedule is one of the quantified
orderings — and a subsequent `Stats()` returns exactly the componentwise
(int64) sums of the arguments. -/
theorem addStats_perm_sum (l l2 : List StatCall) (h : l.Perm l2) :
    applyCalls zeroPlan l = applyCalls zeroPlan l2 ∧
    Stats (applyCalls zeroPlan l) =
      (i64 ((l.map StatCall.q).sum), i64 ((l.map StatCall.d).sum),
       i64 ((l.map StatCall.r).sum), i64 ((l.map StatCall.e).sum)) := by
  have hz : zeroPlan =
      { QueryCount := i64 0, Time := i64 0, RowCount := i64 0,
        ErrorCount := i64 0 } := by
    simp [zeroPlan, i64_zero]
  rw [hz, applyCalls_eq l 0 0 0 0, applyCalls_eq l2 0 0 0 0]
  constructor
  · rw [(h.map StatCall.q).sum_eq, (h.map StatCall.d).sum_eq,
      (h.map StatCall.r).sum_eq, (h.map StatCall.e).sum_eq]
  · simp [Stats]

/-- Witness for C9: `addStats_perm_sum` on the two-element call lists
`c9l1` and `c9l2` (the same calls, swapped). -/
theorem addStats_perm_sum_witness :
    applyCalls zeroPlan c9l1 = applyCalls zeroPlan c9l2 ∧
    Stats (applyCalls zeroPlan c9l1) =
      (i64 ((c9l1.map StatCall.q).sum), i64 ((c9l1.map StatCall.d).sum),
       i64 ((c9l1.map StatCall.r).sum), i64 ((c9l1.map StatCall.e).sum)) :=
  addStats_perm_sum c9l1 c9l2 (by decide)

/-- A write that cannot fail appends the packet. -/
theorem writePacket_none (c : Conn) (p : Packet) :
    writePacket none c p = .ok { c with sent := c.sent ++ [p] } := by
  simp [writePacket]

/-- The per-element packet loop is `sendAll` of the mapped packets. -/
theorem writeList_eq_sendAll {α : Type} (mk : α → Packet) (xs : List α) :
    ∀ (failAt : Option Nat) (c : Conn),
      writeList failAt mk c xs = sendAll failAt c (xs.map mk) := by
  induction xs with
  | nil => intro failAt c; rfl
  | cons x xs ih =>
    intro failAt c
    simp only [writeList, List.map_cons, sendAll]
    cases writePacket failAt c (mk x) with
    | error e => rfl
    | ok c1 => exact ih failAt c1

/-- The loop `sendAll` splits over concatenation, aborting on the first failure. -/
theorem sendAll_append (failAt : Option Nat) (ps qs : List Packet) :
    ∀ c : Conn,
      sendAll failAt c (ps ++ qs) =
        match sendAll failAt c ps with
        | (c1, true) => sendAll failAt c1 qs
        | (c1, false) => (c1, false) := by
  induction ps with
  | nil => intro c; rfl
  | cons p ps ih =>
    intro c
    simp only [List.cons_append, sendAll]
    cases writePacket failAt c p with
    | error e => rfl
    | ok c1 => exact ih c1

/-- Unfolded, `writeResultset` is: reset `affectedRows`, send the spec's packet
sequence, then flush. -/
theorem writeResultset_eq_sendAll (failAt : Option Nat) (status : Nat)
    (r : Resultset) (c0 : Conn) :
    writeResultset failAt status r c0 =
      match sendAll failAt { c0 with affectedRows := -1 }
          (expectedPackets status r) with
      | (c1, false) => (c1, false)
      | (c1, true) =>
        match flush failAt c1 with
        | .error _ => (c1, false)
        | .ok c2 => (c2, true) := by
  simp only [writeResultset, expectedPackets, writeEOF,
    writeList_eq_sendAll, sendAll]
  cases writePacket failAt { c0 with affectedRows := -1 }
      (.columnCount (PutLengthEncodedInt r.Fields.length)) with
  | error e => rfl
  | ok c1 =>
    dsimp only
    rw [sendAll_append]
    rcases hA : sendAll failAt c1 (r.Fields.map Packet.fieldPkt) with ⟨c2, b2⟩
    cases b2 with
    | false => rfl
    | true =>
      dsimp only [sendAll]
      cases writePacket failAt c2 (.eof status) with
      | error e => rfl
      | ok c3 =>
        dsimp only
        rw [sendAll_append]
        rcases hB : sendAll failAt c3 (r.RowDatas.map Packet.rowPkt) with ⟨c4, b4⟩
        cases b4 with
        | false => rfl
        | true =>
          dsimp only [sendAll]
          cases writePacket failAt c4 (.eof status) with
          | error e => rfl
          | ok c5 => rfl

/-- With no failing write, `sendAll` appends the whole list. -/
theorem sendAll_none (ps : List Packet) : ∀ c : Conn,
    sendAll none c ps = ({ c with sent := c.sent ++ ps }, true) := by
  induction ps with
  | nil => intro c; simp [sendAll]
  | cons p ps ih =>
    intro c
    simp only [sendAll, writePacket_none]
    rw [ih]
    simp

/-- When the first failing write falls inside the list, `sendAll` sends
exactly the packets before it and reports failure. -/
theorem sendAll_fail (k : Nat) (ps : List Packet) : ∀ c : Conn,
    c.sent.length ≤ k → k < c.sent.length + ps.length →
    sendAll (some k) c ps =
      ({ c with sent := c.sent ++ ps.take (k - c.sent.length) }, false) := by
  induction ps with
  | nil =>
    intro c h1 h2
    simp at h2
    omega
  | cons p ps ih =>
    intro c h1 h2
    by_cases hk : k = c.sent.length
    · subst hk
      simp [sendAll, writePacket]
    · have hlt : c.sent.length < k := lt_of_le_of_ne h1 (Ne.symm hk)
      simp only [sendAll, writePacket,
        if_neg (by simp [hk] : ¬ (some k : Option Nat) = some c.sent.length)]
      rw [ih { c with sent := c.sent ++ [p] }
        (by simp; omega) (by simp at h2 ⊢; omega)]
      have hj : k - c.sent.length = (k - (c.sent.length + 1)) + 1 := by
        omega
      simp only [List.length_append, List.length_cons, List.length_nil,
        Nat.zero_add]
      rw [hj, List.take_succ_cons]
      simp [List.append_assoc]

/-- Claim C4: for every resultset and status flags, `writeResultset`
first resets the last-affected-rows count to the sentinel `-1`; when no
write fails it emits, before the final flush, exactly
`1 + M + 1 + N + 1` packets in the fixed order column count, `M` field
packets, EOF, `N` row packets, EOF; and the first packet-write failure
(at any position `k` of the sequence) aborts the rest — exactly the
first `k` packets are sent — and propagates the error. -/
theorem writeResultset_packet_sequence (status : Nat) (r : Resultset) :
    (expectedPackets status r).length =
      1 + r.Fields.length + 1 + r.RowDatas.length + 1 ∧
    (∀ (a : Int) (s0 : List Packet),
      writeResultset none status r { affectedRows := a, sent := s0 } =
        ({ affectedRows := -1, sent := s0 ++ expectedPackets status r },
          true)) ∧
    (∀ (a : Int) (k : Nat), k < (expectedPackets status r).length →
      writeResultset (some k) status r { affectedRows := a, sent := [] } =
        ({ affectedRows := -1, sent := (expectedPackets status r).take k },
          false)) := by
  refine ⟨?_, ?_, ?_⟩
  · simp only [expectedPackets, List.length_cons, List.length_append,
      List.length_map, List.length_nil]
    omega
  · intro a s0
    rw [writeResultset_eq_sendAll, sendAll_none]
    simp [flush]
  · intro a k hk
    rw [writeResultset_eq_sendAll,
      sendAll_fail k _ _ (by simp) (by simpa using hk)]
    simp

/-- Witness for C4: `writeResultset_packet_sequence` on the two-field,
one-row resultset `c4r`, with the failure clause at `k = 1`. -/
theorem writeResultset_packet_sequence_witness :
    (expectedPackets 2 c4r).length =
      1 + c4r.Fields.length + 1 + c4r.RowDatas.length + 1 ∧
    writeResultset none 2 c4r { affectedRows := 0, sent := [] } =
      ({ affectedRows := -1, sent := [] ++ expectedPackets 2 c4r }, true) ∧
    writeResultset (some 1) 2 c4r { affectedRows := 0, sent := [] } =
      ({ affectedRows := -1, sent := (expectedPackets 2 c4r).take 1 },
        false) := by
  obtain ⟨h1, h2, h3⟩ := writeResultset_packet_sequence 2 c4r
  exact ⟨h1, h2 0 [], h3 0 1 (by decide)⟩

/-- Witness for C1's amended theorem: applied to `c1si`. -/
theorem writeOnly_missing_target_sets_cache_w_witness :
    mapLookup (SchemaInfo.override c1si).tables "t" =
      some { CacheType := CACHE_W, Cache := none, PKColumns := ([] : List String) } :=
  writeOnly_missing_target_sets_cache_w c1si
    { Name := "t", PKColumns := none,
      Cache := some { Typ := "W", Pfx := "", Table := "missing" } }
    { Typ := "W", Pfx := "", Table := "missing" }
    { CacheType := CACHE_NONE, Cache := none, PKColumns := [] }
    rfl rfl rfl rfl rfl rfl rfl (Or.inr (Or.inl rfl))

end CM
